import Mathlib

/-!
# Verification of the NOAA 2024 exploration pipeline

Shallow embedding of the data-cleaning code of the repository
`Sinnick4r/Exploracion_NOAA_2024` (files `limpieza de datos NOAA 2024.py`,
`preprocesamiento de datos NOAA.py`, `Limpieza final.py`,
`Chequeo Archivo final.py`) together with theorems settling the frozen
claims about its natural-language specification.

Conventions of the embedding:
* a pandas cell is `Cell := Option Val`; `none` models `NaN`/null;
* numeric values are embedded as exact rationals `ℚ`; every numeric
  literal the claims exercise (`12000`, `3.5e6`, `-5`, `-1`, …) is exactly
  representable in IEEE double precision, so IEEE rounding never separates
  the model from the code on the claims' inputs;
* Python text functions (`upper`, `lower`, `strip`, `unicodedata` NFKD +
  ascii-ignore encode) are modelled for ASCII and the Latin-1 letters that
  occur in NOAA column headers; unlisted non-ASCII characters are modelled
  as being removed by the ascii-ignore encode;
* fallible code is `Option`-valued (`none` = raised exception at the
  function boundary, or `NaT` for coerced datetime parses, as noted at
  each definition).
-/

set_option autoImplicit false

namespace NOAA

/-- A scalar value held in a dataframe cell: a number (exact rational in the
model), a string, or a datetime produced by `pd.to_datetime` (only dates are
needed by the pipeline's claims). -/
inductive Val where
  | num (q : ℚ)
  | str (s : String)
  | date (y m d : ℕ)
deriving DecidableEq, Repr

/-- A pandas cell: `none` models `NaN` / missing. -/
abbrev Cell := Option Val

/-- The pandas dtype of a column, as far as the code inspects it
(`df[col].dtype in ['float64', 'int64']` in `Limpieza final.py`). -/
inductive Dtype where
  | float64
  | int64
  | object
deriving DecidableEq, Repr

/-- A named, typed column of a dataframe. -/
structure Col where
  name : String
  dtype : Dtype
  cells : List Cell
deriving DecidableEq, Repr

/-- A dataframe viewed column-wise (used for the column-level operations:
null handling, clamping, fills). -/
abbrev CDF := List Col

/-- Column read `df[name]`: the cells of the first column called `name`, `none` when the
column is absent (a Python read `df[name]` would raise `KeyError`). -/
def getCells (df : CDF) (n : String) : Option (List Cell) :=
  match df with
  | [] => none
  | c :: rest => if c.name = n then some c.cells else getCells rest n

/-- Column write `df[name] = cells` when `name` is an existing column: replaces its cells
and keeps its recorded dtype. -/
def setCells (df : CDF) (n : String) (cs : List Cell) : CDF :=
  df.map (fun c => if c.name = n then ⟨n, c.dtype, cs⟩ else c)

/-- Column write `df[name] = cells` in general: replaces the column when present,
appends a fresh column of dtype `dt` at the end otherwise (pandas appends
new columns on assignment). -/
def setColCells (df : CDF) (n : String) (dt : Dtype) (cs : List Cell) : CDF :=
  if df.any (fun c => c.name == n) then setCells df n cs
  else df ++ [⟨n, dt, cs⟩]

/-! ## Character-level models of the Python text primitives -/

/-- Whether `c` is an ASCII digit. -/
def isDigitChar (c : Char) : Bool :=
  decide (48 ≤ c.toNat ∧ c.toNat ≤ 57)

/-- Characters stripped by Python `str.strip()`: the ASCII whitespace set
plus the no-break space; other Unicode spaces do not occur in the data. -/
def pyIsSpace (c : Char) : Bool :=
  decide (c.toNat = 32 ∨ c.toNat = 9 ∨ c.toNat = 10 ∨ c.toNat = 13 ∨
          c.toNat = 11 ∨ c.toNat = 12 ∨ c.toNat = 160)

/-- Python `str.strip()`: drop leading and trailing whitespace. -/
def pyStripL (cs : List Char) : List Char :=
  ((cs.dropWhile pyIsSpace).reverse.dropWhile pyIsSpace).reverse

/-- Python `str.upper()` modelled on ASCII; the damage strings the code
uppercases contain only digits, `.` and suffix letters. -/
def pyUpperChar (c : Char) : Char :=
  if 97 ≤ c.toNat ∧ c.toNat ≤ 122 then Char.ofNat (c.toNat - 32) else c

/-- Python `str.lower()` modelled on ASCII plus the Latin-1 uppercase
letters (`À`…`Þ` except `×`), which lower by adding 32 — exactly Python's
behaviour on that range. -/
def pyLowerChar (c : Char) : Char :=
  if 65 ≤ c.toNat ∧ c.toNat ≤ 90 then Char.ofNat (c.toNat + 32)
  else if 192 ≤ c.toNat ∧ c.toNat ≤ 222 ∧ c.toNat ≠ 215 then Char.ofNat (c.toNat + 32)
  else c

/-- The value of a nonempty digit string. -/
def digitsToNat (cs : List Char) : ℕ :=
  cs.foldl (fun a c => 10 * a + (c.toNat - 48)) 0

/-- Value of the fractional digit string `ds` read after a decimal point. -/
def fracVal (ds : List Char) : ℚ :=
  (digitsToNat ds : ℚ) / (10 : ℚ) ^ ds.length

/-! ## `convertir_damage` (both versions) -/

/-- The value of a Python `float`: a finite value (exact rational in the
model), a signed infinity, or `nan`. -/
inductive PyFloat where
  | finite (q : ℚ)
  | inf (neg : Bool)
  | nan
deriving DecidableEq, Repr

/-- Model of `re.match(r"(\d+(\.\d+)?)([KMB])?", value)`: on success returns
(`number_str` = group 1, `suffix` = group 3).  The pattern is anchored at
the start, the fractional part backtracks away when `.` is not followed by
a digit, and the trailing suffix group matches only `K`, `M` or `B`. -/
def damageMatch (cs : List Char) : Option (List Char × Option Char) :=
  let ds := cs.takeWhile isDigitChar
  if ds.isEmpty then none
  else
    let r1 := cs.dropWhile isDigitChar
    let p : List Char × List Char :=
      match r1 with
      | '.' :: r2 =>
          let fs := r2.takeWhile isDigitChar
          if fs.isEmpty then (ds, r1) else (ds ++ '.' :: fs, r2.dropWhile isDigitChar)
      | _ => (ds, r1)
    let suffix : Option Char :=
      match p.2 with
      | c :: _ => if c = 'K' ∨ c = 'M' ∨ c = 'B' then some c else none
      | [] => none
    some (p.1, suffix)

/-- Model of `float(number_str)` for a regex group 1 (`\d+(\.\d+)?`).  The
model keeps the exact rational value; CPython's `float()` saturates a
decimal string whose value exceeds the double range (about `1.8e308`) to
`inf` (e.g. `float("9"*400) == inf`), and that saturation is *not*
modelled here.  The model is therefore faithful to the code only for
group-1 strings below the overflow threshold, and no theorem evaluates
this function except at small concrete inputs. -/
def parseNumberStr (cs : List Char) : ℚ :=
  let ip := cs.takeWhile isDigitChar
  match cs.dropWhile isDigitChar with
  | '.' :: fs => (digitsToNat ip : ℚ) + fracVal fs
  | _ => (digitsToNat ip : ℚ)

/-- Reads a digit run, `int(digit string)`, used as an exponent. -/
def parseDigits (cs : List Char) : Option (ℕ × List Char) :=
  let ds := cs.takeWhile isDigitChar
  if ds.isEmpty then none else some (digitsToNat ds, cs.dropWhile isDigitChar)

/-- Mantissa of a Python float literal: `digits [. digits]` or `. digits`. -/
def parseMantissa (cs : List Char) : Option (ℚ × List Char) :=
  match cs with
  | '.' :: rest =>
      let ds := rest.takeWhile isDigitChar
      if ds.isEmpty then none else some (fracVal ds, rest.dropWhile isDigitChar)
  | _ =>
      let ds := cs.takeWhile isDigitChar
      if ds.isEmpty then none
      else
        let r1 := cs.dropWhile isDigitChar
        match r1 with
        | '.' :: r2 => some ((digitsToNat ds : ℚ) + fracVal (r2.takeWhile isDigitChar),
                             r2.dropWhile isDigitChar)
        | _ => some ((digitsToNat ds : ℚ), r1)

/-- Optional exponent `E[+|-]digits` of a Python float literal (inputs are
already uppercased by the caller). -/
def parseExp (cs : List Char) : Option (ℤ × List Char) :=
  match cs with
  | 'E' :: rest =>
      match rest with
      | '+' :: r2 => (parseDigits r2).map (fun p => ((p.1 : ℤ), p.2))
      | '-' :: r2 => (parseDigits r2).map (fun p => (-(p.1 : ℤ), p.2))
      | _ => (parseDigits rest).map (fun p => ((p.1 : ℤ), p.2))
  | _ => some (0, cs)

/-- Python `float(value)` on an (already stripped and uppercased) string:
optional sign, then `INF`/`INFINITY`/`NAN` or a decimal literal with
optional exponent.  `none` models the `ValueError` the callers catch.
Overflow of huge finite literals to `inf` is not modelled (the model keeps
the exact rational); no claim depends on it. -/
def pyParseFloat (cs : List Char) : Option PyFloat :=
  let sb : Bool × List Char :=
    match cs with
    | '+' :: r => (false, r)
    | '-' :: r => (true, r)
    | _ => (false, cs)
  let neg := sb.1
  let body := sb.2
  if body = ['I', 'N', 'F'] ∨ body = ['I', 'N', 'F', 'I', 'N', 'I', 'T', 'Y'] then
    some (.inf neg)
  else if body = ['N', 'A', 'N'] then some .nan
  else
    match parseMantissa body with
    | none => none
    | some (m, rest) =>
        match parseExp rest with
        | none => none
        | some (e, rest2) =>
            if rest2.isEmpty then
              some (.finite ((if neg then -m else m) * (10 : ℚ) ^ e))
            else none

namespace Limpieza

/-- The function `convertir_damage` of `limpieza de datos NOAA 2024.py` (string case):
uppercase and strip the value, match `(\d+(\.\d+)?)([KMB])?`; on a match,
scale group 1 by the suffix; on no match, fall back to `float(value)` and
return 0 on `ValueError`.  (The `try/except` around `float(number_str)` can
never fire: group 1 is always a valid decimal.) -/
def convertir_damage (s : String) : PyFloat :=
  let v := pyStripL (s.data.map pyUpperChar)
  match damageMatch v with
  | some (numStr, suffix) =>
      let number := parseNumberStr numStr
      match suffix with
      | some 'K' => .finite (number * 1000)
      | some 'M' => .finite (number * 1000000)
      | some 'B' => .finite (number * 1000000000)
      | _ => .finite number
  | none =>
      match pyParseFloat v with
      | some f => f
      | none => .finite 0

/-- The function `convertir_damage` on a possibly missing value: Python's
`if not isinstance(value, str): return value if pd.notnull(value) else 0`
maps `None`/`NaN` to 0. -/
def convertir_damage_opt (v : Option String) : PyFloat :=
  match v with
  | none => .finite 0
  | some s => convertir_damage s

end Limpieza

namespace Preproc

/-- The function `convertir_damage` of `preprocesamiento de datos NOAA.py` (string case):
same regex, multiplier via `{"K": 1e3, "M": 1e6, "B": 1e9}.get(suffix, 1)`,
and — unlike the other version — a plain `return 0` when the regex does not
match (no `float(value)` fallback). -/
def convertir_damage (s : String) : PyFloat :=
  let v := pyStripL (s.data.map pyUpperChar)
  match damageMatch v with
  | some (numStr, suffix) =>
      let mult : ℚ :=
        match suffix with
        | some 'K' => 1000
        | some 'M' => 1000000
        | some 'B' => 1000000000
        | _ => 1
      .finite (parseNumberStr numStr * mult)
  | none => .finite 0

/-- The function `convertir_damage` of `preprocesamiento de datos NOAA.py`
on a possibly missing value: `if not isinstance(value, str): return value
if pd.notnull(value) else 0` maps `None`/`NaN` to 0. -/
def convertir_damage_opt (v : Option String) : PyFloat :=
  match v with
  | none => .finite 0
  | some s => convertir_damage s

end Preproc

/-- The property the spec asserts of `parse_monetary` outputs: a finite,
non-negative float. -/
def nonnegFinite (f : PyFloat) : Prop :=
  ∃ q : ℚ, f = .finite q ∧ 0 ≤ q

/-! ## Null fractions and the column-drop passes -/

/-- Model of `df[col].isnull().mean()`: fraction of null cells (0 for an empty
column, matching `x if x >= 0`-style comparisons downstream: pandas yields
`NaN` there and every `NaN` comparison is false, like `0 > t` for the
thresholds in use). -/
def nullFrac (cs : List Cell) : ℚ :=
  ((cs.countP (fun c => c.isNone)) : ℚ) / (cs.length : ℚ)

namespace Limpieza

/-- The function `manejar_nulos` of `limpieza de datos NOAA 2024.py`: drop every column
whose null fraction is strictly greater than `threshold` (default 0.5). -/
def manejar_nulos (df : CDF) (threshold : ℚ := 1 / 2) : CDF :=
  df.filter (fun col => !(decide (threshold < nullFrac col.cells)))

/-- The element-wise lambda of `fuera_de_rango`:
`x if x >= 0 else 0`.  In Python `NaN >= 0` is false, so a null cell also
becomes 0.  (A string cell would raise `TypeError`; after the damage
conversion the damage columns hold only numbers, and the model leaves a
string cell unchanged.) -/
def clampCell (c : Cell) : Cell :=
  match c with
  | some (.num q) => some (.num (if 0 ≤ q then q else 0))
  | none => some (.num 0)
  | some v => some v

/-- The function `fuera_de_rango`: when `DAMAGE_PROPERTY` is present, clamp it in place;
when `DAMAGE_CROPS` is present, the code assigns the clamped values to the
misspelled column name `DAMAGE_CRP¨S` (a new column), leaving
`DAMAGE_CROPS` itself untouched — the model reproduces the misspelling
faithfully. -/
def fuera_de_rango (df : CDF) : CDF :=
  let df1 :=
    match getCells df "DAMAGE_PROPERTY" with
    | some cs => setColCells df "DAMAGE_PROPERTY" Dtype.float64 (cs.map clampCell)
    | none => df
  match getCells df1 "DAMAGE_CROPS" with
  | some cs => setColCells df1 "DAMAGE_CRP¨S" Dtype.float64 (cs.map clampCell)
  | none => df1

end Limpieza

/-! ## `convertir_tiempo`: composite date reconstruction -/

/-- Gregorian leap year. -/
def isLeap (y : ℕ) : Bool :=
  decide ((y % 4 = 0 ∧ y % 100 ≠ 0) ∨ y % 400 = 0)

/-- Days in month `m` of year `y` (0 for an invalid month). -/
def daysInMonth (y m : ℕ) : ℕ :=
  if m = 1 ∨ m = 3 ∨ m = 5 ∨ m = 7 ∨ m = 8 ∨ m = 10 ∨ m = 12 then 31
  else if m = 4 ∨ m = 6 ∨ m = 9 ∨ m = 11 then 30
  else if m = 2 then (if isLeap y then 29 else 28)
  else 0

/-- Model of `pd.to_datetime(s, format='%Y%m%d', errors='coerce')` on one entry:
exactly eight digits split 4–2–2, validated against the calendar; `none`
models `NaT`. -/
def parseYMD8 (s : String) : Option Val :=
  let cs := s.data
  if cs.length = 8 ∧ cs.all isDigitChar then
    let y := digitsToNat (cs.take 4)
    let m := digitsToNat ((cs.drop 4).take 2)
    let d := digitsToNat (cs.drop 6)
    if 1 ≤ m ∧ m ≤ 12 ∧ 1 ≤ d ∧ d ≤ daysInMonth y m then some (Val.date y m d)
    else none
  else none

/-- Python `str.zfill(2)` on an unsigned digit string. -/
def zfill2 (s : String) : String :=
  if s.length < 2 then String.mk (List.replicate (2 - s.length) '0') ++ s else s

/-- Model of `astype(str)` on a cell holding a year-month or day number: a
non-negative integer renders as its digits; a null renders as `"nan"` (and
any non-integral number would render with a decimal point) — both fail the
eight-digit date parse, exactly as in pandas. -/
def cellAsIntStr (c : Cell) : String :=
  match c with
  | some (.num q) => if q.den = 1 ∧ 0 ≤ q.num then toString q.num.toNat else "nan"
  | some (.str s) => s
  | some (.date _ _ _) => "nan"
  | none => "nan"

/-- Model of `astype(str)` on a general cell: a null renders as `"nan"`, a string
as itself.  (Python renders a float like `2.0`; the model renders the
rational — the pipeline only ever stringifies the string-valued
`FATALITY_LOCATION` cells, where the two agree.) -/
def cellAsPyStr (c : Cell) : String :=
  match c with
  | some (.str s) => s
  | some (.num q) => toString q
  | some (.date _ _ _) => "nan"
  | none => "nan"

namespace Limpieza

/-- The year-month/day branch of `convertir_tiempo`: when both columns are
present, append (or overwrite) `<prefix>_DATE` with
`pd.to_datetime(ym.astype(str) + day.astype(str).str.zfill(2),
format='%Y%m%d', errors='coerce')`; an invalid calendar combination yields
a null cell (`NaT`), never an exception. -/
def convertir_tiempo_fecha (df : CDF) (year_month_col day_col out_col : String) : CDF :=
  match getCells df year_month_col, getCells df day_col with
  | some yms, some days =>
      setColCells df (out_col ++ "_DATE") Dtype.object
        ((yms.zip days).map (fun p => parseYMD8 (cellAsIntStr p.1 ++ zfill2 (cellAsIntStr p.2))))
  | _, _ => df

/-- The function `limpiar_fatalidades`: fill null `FATALITY_AGE` with `-1`, null
`FATALITY_SEX` with `'Desconocido'`, and, when present, strip+lowercase
`FATALITY_LOCATION` as strings.  Reading a missing `FATALITY_AGE` or
`FATALITY_SEX` column raises `KeyError` in Python, modelled as `none`. -/
def limpiar_fatalidades (df : CDF) : Option CDF :=
  match getCells df "FATALITY_AGE", getCells df "FATALITY_SEX" with
  | some ages, some sexes =>
      let df1 := setCells df "FATALITY_AGE"
        (ages.map (fun c => some (c.getD (Val.num (-1)))))
      let df2 := setCells df1 "FATALITY_SEX"
        (sexes.map (fun c => some (c.getD (Val.str "Desconocido"))))
      some (match getCells df2 "FATALITY_LOCATION" with
        | some locs => setCells df2 "FATALITY_LOCATION"
            (locs.map (fun c => some (Val.str (String.mk
              ((pyStripL (cellAsPyStr c).data).map pyLowerChar)))))
        | none => df2)
  | _, _ => none

end Limpieza

/-! ## Column-name normalization (`preprocesamiento de datos NOAA.py`) -/

/-- Model of `re.sub` on one character: the character class kept by the final
substitution. -/
def isAllowed (c : Char) : Bool :=
  decide ((97 ≤ c.toNat ∧ c.toNat ≤ 122) ∨ (48 ≤ c.toNat ∧ c.toNat ≤ 57) ∨ c.toNat = 95)

/-- Model of `str.replace(" ", "_")` on one character. -/
def replaceSpaceChar (c : Char) : Char :=
  if c.toNat = 32 then '_' else c

/-- Model of `unicodedata.normalize` (NFKD) followed by an ascii-ignore encode on one
character: ASCII characters survive unchanged; the Latin-1 letters and
ordinal signs that occur in column headers decompose to their base ASCII
letter; every other non-ASCII character (including `°`, which has no NFKD
decomposition) is removed by the ascii-ignore encode. -/
def nfkdAsciiChar (c : Char) : List Char :=
  if c.toNat < 128 then [c]
  else if c.toNat = 170 then ['a']
  else if c.toNat = 186 then ['o']
  else if 224 ≤ c.toNat ∧ c.toNat ≤ 229 then ['a']
  else if c.toNat = 231 then ['c']
  else if 232 ≤ c.toNat ∧ c.toNat ≤ 235 then ['e']
  else if 236 ≤ c.toNat ∧ c.toNat ≤ 239 then ['i']
  else if c.toNat = 241 then ['n']
  else if 242 ≤ c.toNat ∧ c.toNat ≤ 246 then ['o']
  else if 249 ≤ c.toNat ∧ c.toNat ≤ 252 then ['u']
  else if c.toNat = 253 ∨ c.toNat = 255 then ['y']
  else []

namespace Preproc

/-- The character-list pipeline of `normalizar_nombre_columna`:
`col.strip().lower().replace(" ", "_")`, then NFKD + ascii-ignore encode,
then `re.sub(r"[^a-z0-9_]", "", col)`. -/
def normList (l : List Char) : List Char :=
  ((((pyStripL l).map pyLowerChar).map replaceSpaceChar).flatMap nfkdAsciiChar).filter isAllowed

/-- The function `normalizar_nombre_columna` of `preprocesamiento de datos NOAA.py`. -/
def normalizar_nombre_columna (s : String) : String :=
  String.mk (normList s.data)

end Preproc

/-! ## `Limpieza final.py`: drop pass and value-fill pass -/

namespace LimpiezaFinal

/-- The function `manejar_columnas_con_nulos`: drop every column whose null fraction is
strictly greater than `umbral` (default 0.9). -/
def manejar_columnas_con_nulos (df : CDF) (umbral : ℚ := 9 / 10) : CDF :=
  df.filter (fun col => !(decide (umbral < nullFrac col.cells)))

/-- The fill value `manejar_nulos` uses for a column:
`0` when `df[col].dtype in ['float64', 'int64']`, the literal string
`'Desconocido'` otherwise. -/
def fillValue (dt : Dtype) : Val :=
  if dt = Dtype.float64 ∨ dt = Dtype.int64 then Val.num 0 else Val.str "Desconocido"

/-- The function `manejar_nulos` of `Limpieza final.py`: for every column that contains
nulls (in column order), `fillna` with `fillValue` of its dtype. -/
def manejar_nulos (df : CDF) : CDF :=
  df.map (fun col =>
    if col.cells.any (fun c => c.isNone) then
      ⟨col.name, col.dtype, col.cells.map (fun c => some (c.getD (fillValue col.dtype)))⟩
    else col)

/-- The audit trail of `manejar_nulos`: the `logging.info` calls record, in
column order, each filled column with its fill value. -/
def relleno_log (df : CDF) : List (String × Val) :=
  (df.filter (fun col => col.cells.any (fun c => c.isNone))).map
    (fun col => (col.name, fillValue col.dtype))

end LimpiezaFinal

/-! ## Row-oriented model: merges and the duplicate analyzer

A row is an association list from column names to cells (one entry per
column, in column order); a row-oriented dataframe keeps the column list
alongside the rows. -/

/-- A dataframe row: column name to cell, in column order. -/
abbrev Row := List (String × Cell)

/-- A row-oriented dataframe. -/
structure RDF where
  cols : List String
  rows : List Row
deriving DecidableEq, Repr

/-- The cell of row `r` in column `k`; a missing entry reads as null. -/
def rowCell (r : Row) (k : String) : Cell :=
  match r with
  | [] => none
  | p :: rest => if p.1 = k then p.2 else rowCell rest k

/-- Key equality as used by `pd.merge`: two key cells join only when both
are non-null and equal (`NaN` never joins with `NaN`). -/
def cellEqSome (a b : Cell) : Bool :=
  match a, b with
  | some x, some y => decide (x = y)
  | _, _ => false

/-- Drop the key column from a right-side row before appending it. -/
def rowDropKey (r : Row) (k : String) : Row :=
  r.filter (fun p => decide (p.1 ≠ k))

/-- The all-null right side appended to an unmatched left row. -/
def nullRow (cols : List String) (k : String) : Row :=
  (cols.filter (fun c => decide (c ≠ k))).map (fun c => (c, (none : Cell)))

/-- Left merge `l.merge(r, on=key, how='left')`: result columns are the left columns
followed by the right columns minus the key; every left row is repeated
once per matching right row (fan-out) or padded with nulls when nothing
matches.  (Non-key column names are assumed disjoint — pandas would
suffix overlapping names with `_x`/`_y`; the pipeline's three tables share
only `EVENT_ID`.) -/
def leftMerge (l r : RDF) (key : String) : RDF :=
  { cols := l.cols ++ r.cols.filter (fun c => decide (c ≠ key)),
    rows := l.rows.flatMap (fun lr =>
      let ms := r.rows.filter (fun rr => cellEqSome (rowCell lr key) (rowCell rr key))
      if ms.isEmpty then [lr ++ nullRow r.cols key]
      else ms.map (fun rr => lr ++ rowDropKey rr key)) }

/-- Model of `drop_duplicates(subset=[k])` (keep the first occurrence); unlike merge
keys, `duplicated` treats null keys as equal to each other. -/
def dedupByKey (k : String) (seen : List Cell) : List Row → List Row
  | [] => []
  | r :: rs =>
      if rowCell r k ∈ seen then dedupByKey k seen rs
      else r :: dedupByKey k (rowCell r k :: seen) rs

/-- Drop the named columns from a row-oriented dataframe
(`drop(columns=..., errors='ignore')`). -/
def dropColsRDF (df : RDF) (names : List String) : RDF :=
  { cols := df.cols.filter (fun c => !(names.contains c)),
    rows := df.rows.map (fun r => r.filter (fun p => !(names.contains p.1))) }

namespace Limpieza

/-- The function `limpiar_lugares`: drop `LAT2`/`LON2` (ignoring absence), then, when
`EVENT_ID` is present, `drop_duplicates(subset=['EVENT_ID'])`. -/
def limpiar_lugares (df : RDF) : RDF :=
  let d1 := dropColsRDF df ["LAT2", "LON2"]
  if d1.cols.contains "EVENT_ID" then { d1 with rows := dedupByKey "EVENT_ID" [] d1.rows }
  else d1

end Limpieza

namespace Chequeo

/-- Model of `Series.nunique()`: number of distinct non-null values. -/
def nuniqueDropna (cs : List Cell) : ℕ :=
  (cs.filterMap id).dedup.length

/-- The partial-duplicate subset `df[df.duplicated(subset=[k], keep=False)]`: the rows whose key value
occurs in at least two rows (`duplicated` treats null keys as equal). -/
def duplicadosParciales (rows : List Row) (k : String) : List Row :=
  rows.filter (fun r => 2 ≤ rows.countP (fun r2 => decide (rowCell r2 k = rowCell r k)))

/-- The distinct non-null group keys of `groupby(k)` (null keys are
dropped by `groupby`). -/
def groupKeys (rows : List Row) (k : String) : List Val :=
  (rows.filterMap (fun r => rowCell r k)).dedup

/-- Model of `rows.groupby(k)[col].nunique().max()` (0 when there are no groups;
pandas yields `NaN` there, and `NaN > 1` is false like `0 > 1`). -/
def maxGroupNunique (rows : List Row) (k col : String) : ℕ :=
  ((groupKeys rows k).map (fun v =>
    nuniqueDropna ((rows.filter (fun r => decide (rowCell r k = some v))).map
      (fun r => rowCell r col)))).foldr max 0

/-- The list `columnas_con_diferencias` of `validate_and_report`: over the
partial-duplicate subset grouped by the key, the columns (in column order)
whose per-group `nunique()` exceeds 1 somewhere. -/
def columnas_con_diferencias (df : RDF) (k : String) : List String :=
  df.cols.filter (fun col =>
    decide (1 < maxGroupNunique (duplicadosParciales df.rows k) k col))

end Chequeo

/-! ## Concrete input tables used by the claim theorems and witnesses -/

/-- A details table whose `DAMAGE_PROPERTY` holds a negative value and whose
`DAMAGE_CROPS` holds `-5` (the failing input of the crops-clamping claim). -/
def dfDamage : CDF :=
  [⟨"DAMAGE_PROPERTY", Dtype.float64, [some (Val.num (-3)), some (Val.num 7)]⟩,
   ⟨"DAMAGE_CROPS", Dtype.float64, [some (Val.num (-5))]⟩]

/-- A table with one categorical column containing a null (exercises the
value-fill token). -/
def dfFillTok : CDF := [⟨"EVENT_TYPE", Dtype.object, [none, some (Val.str "Hail")]⟩]

/-- The single column of `dfFillTok`. -/
def colFillTok : Col := ⟨"EVENT_TYPE", Dtype.object, [none, some (Val.str "Hail")]⟩

/-- A year-month/day table holding the two date combinations of the
date-reconstruction claim. -/
def dfFechas : CDF :=
  [⟨"BEGIN_YEARMONTH", Dtype.int64, [some (Val.num 202403), some (Val.num 202302)]⟩,
   ⟨"BEGIN_DAY", Dtype.int64, [some (Val.num 15), some (Val.num 31)]⟩]

/-- A fatalities table with a null age and a null sex. -/
def dfFat : CDF :=
  [⟨"FATALITY_AGE", Dtype.float64, [none, some (Val.num 30)]⟩,
   ⟨"FATALITY_SEX", Dtype.object, [none]⟩]

/-- A column whose null fraction is exactly one half. -/
def colHalfNull : Col := ⟨"A", Dtype.float64, [none, some (Val.num 1)]⟩

/-- A column whose null fraction is 1. -/
def colAllNull : Col := ⟨"B", Dtype.float64, [none]⟩

/-- A two-column table sitting exactly at and above the drop threshold 1/2. -/
def dfThreshold : CDF := [colHalfNull, colAllNull]

/-- Two rows sharing key `E1` whose only difference is a null versus
non-null `FATALITY_AGE` (the nunique-misses-nulls failing input). -/
def dfDupNull : RDF :=
  ⟨["EVENT_ID", "FATALITY_AGE", "X"],
   [[("EVENT_ID", some (Val.str "E1")), ("FATALITY_AGE", (none : Cell)),
     ("X", some (Val.str "a"))],
    [("EVENT_ID", some (Val.str "E1")), ("FATALITY_AGE", some (Val.num 5)),
     ("X", some (Val.str "a"))]]⟩

/-- First row of `dfDupAges`. -/
def rowDup1 : Row :=
  [("EVENT_ID", some (Val.str "E1")), ("FATALITY_AGE", some (Val.num 3)),
   ("X", some (Val.str "a"))]

/-- Second row of `dfDupAges`. -/
def rowDup2 : Row :=
  [("EVENT_ID", some (Val.str "E1")), ("FATALITY_AGE", some (Val.num 5)),
   ("X", some (Val.str "a"))]

/-- Two rows sharing key `E1` that differ exactly in their (non-null)
`FATALITY_AGE` values. -/
def dfDupAges : RDF := ⟨["EVENT_ID", "FATALITY_AGE", "X"], [rowDup1, rowDup2]⟩

/-- The details row of the merge fan-out witness. -/
def rowDet : Row := [("EVENT_ID", some (Val.str "E1")), ("STATE", some (Val.str "TX"))]

/-- First fatality row of the merge fan-out witness. -/
def rowFat1 : Row := [("EVENT_ID", some (Val.str "E1")), ("FATALITY_AGE", some (Val.num 30))]

/-- Second fatality row of the merge fan-out witness. -/
def rowFat2 : Row := [("EVENT_ID", some (Val.str "E1")), ("FATALITY_AGE", some (Val.num 40))]

/-- Third fatality row of the merge fan-out witness. -/
def rowFat3 : Row := [("EVENT_ID", some (Val.str "E1")), ("FATALITY_AGE", some (Val.num 50))]

/-- A one-row details table keyed `E1`. -/
def dfDet : RDF := ⟨["EVENT_ID", "STATE"], [rowDet]⟩

/-- A three-row fatalities table keyed `E1`. -/
def dfFat3 : RDF := ⟨["EVENT_ID", "FATALITY_AGE"], [rowFat1, rowFat2, rowFat3]⟩

/-- A locations table with a `LAT2` column to drop and two duplicate `E1`
rows for the dedup pass to collapse. -/
def dfLug : RDF :=
  ⟨["EVENT_ID", "LAT2", "LOCATION"],
   [[("EVENT_ID", some (Val.str "E1")), ("LAT2", some (Val.num 1)),
     ("LOCATION", some (Val.str "town"))],
    [("EVENT_ID", some (Val.str "E1")), ("LAT2", some (Val.num 2)),
     ("LOCATION", some (Val.str "city"))]]⟩

/-! ## General list helper lemmas -/

theorem dropWhile_eq_self_of {α : Type} (p : α → Bool) (l : List α)
    (h : ∀ a ∈ l, p a = false) : l.dropWhile p = l := by
  cases l with
  | nil => rfl
  | cons a t => simp [List.dropWhile_cons, h a (List.mem_cons_self a t)]

theorem map_eq_self_of {α : Type} (f : α → α) (l : List α)
    (h : ∀ a ∈ l, f a = a) : l.map f = l := by
  induction l with
  | nil => rfl
  | cons a t ih =>
      simp only [List.map_cons, h a (List.mem_cons_self a t)]
      rw [ih (fun b hb => h b (List.mem_cons_of_mem a hb))]

theorem flatMap_eq_self_of {α : Type} (g : α → List α) (l : List α)
    (h : ∀ a ∈ l, g a = [a]) : l.flatMap g = l := by
  induction l with
  | nil => rfl
  | cons a t ih =>
      simp only [List.flatMap_cons, h a (List.mem_cons_self a t)]
      rw [ih (fun b hb => h b (List.mem_cons_of_mem a hb))]
      rfl

/-! ## Lemmas about the normalization pipeline -/

theorem allowed_char_fixed (c : Char) (h : isAllowed c = true) :
    pyIsSpace c = false ∧ pyLowerChar c = c ∧ replaceSpaceChar c = c ∧
    nfkdAsciiChar c = [c] := by
  have h' : (97 ≤ c.toNat ∧ c.toNat ≤ 122) ∨ (48 ≤ c.toNat ∧ c.toNat ≤ 57) ∨
      c.toNat = 95 := by simpa [isAllowed] using h
  refine ⟨?_, ?_, ?_, ?_⟩
  · simp only [pyIsSpace, decide_eq_false_iff_not]
    omega
  · simp only [pyLowerChar]
    rw [if_neg (by omega), if_neg (by omega)]
  · simp only [replaceSpaceChar]
    rw [if_neg (by omega)]
  · simp only [nfkdAsciiChar]
    rw [if_pos (by omega)]

theorem normList_allowed (l : List Char) :
    ∀ c ∈ Preproc.normList l, isAllowed c = true := by
  intro c hc
  exact List.of_mem_filter hc

theorem pyStripL_eq_self_of (l : List Char) (h : ∀ c ∈ l, pyIsSpace c = false) :
    pyStripL l = l := by
  unfold pyStripL
  rw [dropWhile_eq_self_of _ _ h]
  rw [dropWhile_eq_self_of _ _ (fun c hc => h c (List.mem_reverse.mp hc))]
  exact List.reverse_reverse l

theorem normList_fixed (l : List Char) (h : ∀ c ∈ l, isAllowed c = true) :
    Preproc.normList l = l := by
  unfold Preproc.normList
  rw [pyStripL_eq_self_of l (fun c hc => (allowed_char_fixed c (h c hc)).1)]
  rw [map_eq_self_of _ _ (fun c hc => (allowed_char_fixed c (h c hc)).2.1)]
  rw [map_eq_self_of _ _ (fun c hc => (allowed_char_fixed c (h c hc)).2.2.1)]
  rw [flatMap_eq_self_of _ _ (fun c hc => (allowed_char_fixed c (h c hc)).2.2.2)]
  exact List.filter_eq_self.mpr h

/-! ## Claim C9 and claim C4: the column-name normalizer -/

/-- C9: column-name normalization is idempotent — for every string `x`,
`normalize(normalize(x)) = normalize(x)`. -/
theorem normalizar_nombre_columna_idempotent :
    ∀ s : String,
      Preproc.normalizar_nombre_columna (Preproc.normalizar_nombre_columna s) =
        Preproc.normalizar_nombre_columna s := by
  intro s
  show String.mk (Preproc.normList (Preproc.normList s.data)) =
    String.mk (Preproc.normList s.data)
  rw [normList_fixed _ (normList_allowed s.data)]

/-- C4, counterexample: the normalizer does not map `"Begin Lat (°)"` to
`"begin_lat"` — the internal space before `(°)` became an underscore that
survives the final character filter, so the output is `"begin_lat_"`. -/
theorem normalizar_nombre_columna_begin_lat_ne :
    Preproc.normalizar_nombre_columna "Begin Lat (°)" ≠ "begin_lat" := by decide

/-- C4, amended: `"Begin Lat (°)"` normalizes to `"begin_lat_"` (with a
trailing underscore), and for every input string the output consists only
of characters in `[a-z0-9_]`. -/
theorem normalizar_nombre_columna_ascii :
    Preproc.normalizar_nombre_columna "Begin Lat (°)" = "begin_lat_" ∧
    ∀ s : String, (Preproc.normalizar_nombre_columna s).data.all isAllowed = true := by
  constructor
  · decide
  · intro s
    exact List.all_eq_true.mpr (fun c hc => normList_allowed s.data c hc)

/-! ## Claim C1: the out-of-range correction and the crops typo -/

/-- C1: on a table whose `DAMAGE_CROPS` holds `-5`, `fuera_de_rango` clamps
`DAMAGE_PROPERTY` in place but leaves `DAMAGE_CROPS` at `-5`, writing the
clamped crop values into a new, misspelled column `DAMAGE_CRP¨S` instead —
the negative crops value survives the cleaning stage, contradicting the
claimed non-negativity of `DAMAGE_CROPS`. -/
theorem fuera_de_rango_crops_typo :
    getCells (Limpieza.fuera_de_rango dfDamage) "DAMAGE_CROPS" =
      some [some (Val.num (-5))] ∧
    getCells (Limpieza.fuera_de_rango dfDamage) "DAMAGE_PROPERTY" =
      some [some (Val.num 0), some (Val.num 7)] ∧
    getCells (Limpieza.fuera_de_rango dfDamage) "DAMAGE_CRP¨S" =
      some [some (Val.num 0)] := by
  refine ⟨?_, ?_, ?_⟩ <;> decide

/-! ## Claim C8: composite date reconstruction -/

/-- C8: combining year-month `202403` with day `15` yields the date
2024-03-15, while year-month `202302` with day `31` yields a null cell
(`NaT`): the conversion is total (`Option`-valued), so an invalid calendar
combination is a per-row soft failure, never an exception. -/
theorem convertir_tiempo_fecha_dates :
    getCells (Limpieza.convertir_tiempo_fecha dfFechas "BEGIN_YEARMONTH" "BEGIN_DAY" "BEGIN")
        "BEGIN_DATE" =
      some [some (Val.date 2024 3 15), (none : Cell)] := by
  decide

/-! ## Claim C2: totality and range of the monetary parser -/

/-- C2, counterexample: `convertir_damage` is not non-negative and finite on
every string — a string that fails the leading-number regex falls back to
Python's `float(value)`, so `"-5"` yields `-5.0` (negative) and `"INF"`
yields positive infinity (non-finite). -/
theorem convertir_damage_negative_input :
    ¬ nonnegFinite (Limpieza.convertir_damage "-5") ∧
    ¬ nonnegFinite (Limpieza.convertir_damage "INF") := by
  constructor
  · intro h
    obtain ⟨q, hq, h0⟩ := h
    have hv : Limpieza.convertir_damage "-5" = PyFloat.finite (-5) := by
      with_unfolding_all rfl
    rw [hv] at hq
    injection hq with h'
    rw [← h'] at h0
    norm_num at h0
  · intro h
    obtain ⟨q, hq, _⟩ := h
    have hv : Limpieza.convertir_damage "INF" = PyFloat.inf false := by
      with_unfolding_all rfl
    rw [hv] at hq
    exact PyFloat.noConfusion hq

/-- C2, amended: `parse_monetary` is total over strings and never raises
(both embeddings are `Option`-free total functions), and the spec's
example equalities hold in both versions, `parse_monetary(None) = 0`
included; but it does not return a finite non-negative float for *every*
string — the `limpieza` version's no-match `float(value)` fallback can
yield a negative value (`"-5"` gives `-5.0`) or an infinity (`"INF"`). -/
theorem convertir_damage_amended :
    Limpieza.convertir_damage "12K" = PyFloat.finite 12000 ∧
    Limpieza.convertir_damage "3.5M" = PyFloat.finite 3500000 ∧
    Limpieza.convertir_damage "garbage" = PyFloat.finite 0 ∧
    Limpieza.convertir_damage_opt none = PyFloat.finite 0 ∧
    Preproc.convertir_damage "12K" = PyFloat.finite 12000 ∧
    Preproc.convertir_damage "3.5M" = PyFloat.finite 3500000 ∧
    Preproc.convertir_damage "garbage" = PyFloat.finite 0 ∧
    Preproc.convertir_damage_opt none = PyFloat.finite 0 ∧
    Limpieza.convertir_damage "-5" = PyFloat.finite (-5) := by
  refine ⟨?_, ?_, ?_, ?_, ?_, ?_, ?_, ?_, ?_⟩ <;> with_unfolding_all rfl

/-! ## Claim C6: the column-drop threshold boundary -/

/-- C6: in both drop passes (`manejar_nulos` of the cleaning script and
`manejar_columnas_con_nulos` of the final cleaning script) a column whose
null fraction equals the threshold exactly is kept, and a column whose
null fraction strictly exceeds the threshold is dropped: the comparison is
a strict `>`. -/
theorem drop_threshold_boundary :
    ∀ (df : CDF) (t : ℚ) (col : Col), col ∈ df →
      (nullFrac col.cells = t →
        col ∈ Limpieza.manejar_nulos df t ∧
        col ∈ LimpiezaFinal.manejar_columnas_con_nulos df t) ∧
      (t < nullFrac col.cells →
        col ∉ Limpieza.manejar_nulos df t ∧
        col ∉ LimpiezaFinal.manejar_columnas_con_nulos df t) := by
  intro df t col hmem
  unfold Limpieza.manejar_nulos LimpiezaFinal.manejar_columnas_con_nulos
  constructor
  · intro heq
    have hp : (!(decide (t < nullFrac col.cells))) = true := by
      rw [heq]
      simp
    exact ⟨List.mem_filter.mpr ⟨hmem, hp⟩, List.mem_filter.mpr ⟨hmem, hp⟩⟩
  · intro hlt
    have hp : (!(decide (t < nullFrac col.cells))) = false := by
      simp [hlt]
    constructor
    · intro hin
      have h2 := (List.mem_filter.mp hin).2
      rw [hp] at h2
      exact Bool.noConfusion h2
    · intro hin
      have h2 := (List.mem_filter.mp hin).2
      rw [hp] at h2
      exact Bool.noConfusion h2

/-- C6, witness: with threshold `1/2`, the column whose null fraction is
exactly `1/2` survives both drop passes and the all-null column is
dropped. -/
theorem drop_threshold_boundary_witness :
    colHalfNull ∈ Limpieza.manejar_nulos dfThreshold (1 / 2) ∧
    colAllNull ∉ Limpieza.manejar_nulos dfThreshold (1 / 2) ∧
    colHalfNull ∈ LimpiezaFinal.manejar_columnas_con_nulos dfThreshold (1 / 2) := by
  have h1 := drop_threshold_boundary dfThreshold (1 / 2) colHalfNull (by decide)
  have h2 := drop_threshold_boundary dfThreshold (1 / 2) colAllNull (by decide)
  have e1 : nullFrac colHalfNull.cells = 1 / 2 := by with_unfolding_all rfl
  have e2 : (1 : ℚ) / 2 < nullFrac colAllNull.cells :=
    of_decide_eq_true (by with_unfolding_all rfl)
  exact ⟨(h1.1 e1).1, (h2.2 e2).1, (h1.1 e1).2⟩

/-! ## Claim C3: the value-fill pass of the final cleaning -/

/-- C3, counterexample: the value-fill pass fills a categorical null with
the literal token `'Desconocido'`, not `"unknown"` as the claim states. -/
theorem manejar_nulos_token_desconocido :
    LimpiezaFinal.manejar_nulos dfFillTok =
      [⟨"EVENT_TYPE", Dtype.object,
        [some (Val.str "Desconocido"), some (Val.str "Hail")]⟩] ∧
    Val.str "Desconocido" ≠ Val.str "unknown" := by
  exact ⟨by decide, by decide⟩

theorem manejar_nulos_getElem (df : CDF) (i : ℕ) (col : Col) (h : df[i]? = some col) :
    (LimpiezaFinal.manejar_nulos df)[i]? =
      some (if col.cells.any (fun c => c.isNone) then
        ⟨col.name, col.dtype,
         col.cells.map (fun c => some (c.getD (LimpiezaFinal.fillValue col.dtype)))⟩
      else col) := by
  unfold LimpiezaFinal.manejar_nulos
  rw [List.getElem?_map, h]
  rfl

/-- C3, amended: the value-fill pass visits the surviving columns in column
order (position `i` maps to position `i`), fills every column that still
contains nulls — numeric (`float64`/`int64`) columns with `0`, all other
columns with the literal token `'Desconocido'` —, leaves null-free columns
untouched, records each filled column with its fill value in the audit
log, and leaves no null behind. -/
theorem manejar_nulos_fill_policy :
    ∀ (df : CDF) (i : ℕ) (col : Col), df[i]? = some col →
      ∃ col', (LimpiezaFinal.manejar_nulos df)[i]? = some col' ∧
        col'.name = col.name ∧ col'.dtype = col.dtype ∧
        (col.cells.any (fun c => c.isNone) = false → col' = col) ∧
        (col.cells.any (fun c => c.isNone) = true →
          col'.cells = col.cells.map (fun c => some (c.getD
            (if col.dtype = Dtype.float64 ∨ col.dtype = Dtype.int64 then Val.num 0
             else Val.str "Desconocido"))) ∧
          (col.name,
            if col.dtype = Dtype.float64 ∨ col.dtype = Dtype.int64 then Val.num 0
            else Val.str "Desconocido") ∈ LimpiezaFinal.relleno_log df) ∧
        (∀ c ∈ col'.cells, c.isNone = false) := by
  intro df i col h
  have hmap := manejar_nulos_getElem df i col h
  cases hany : col.cells.any (fun c => c.isNone) with
  | false =>
      rw [if_neg (by rw [hany]; exact Bool.false_ne_true)] at hmap
      refine ⟨col, hmap, rfl, rfl, fun _ => rfl, ?_, ?_⟩
      · intro hcontra
        exact absurd hcontra Bool.false_ne_true
      · intro c hc
        exact Bool.eq_false_iff.mpr (List.any_eq_false.mp hany c hc)
  | true =>
      rw [if_pos hany] at hmap
      refine ⟨⟨col.name, col.dtype,
        col.cells.map (fun c => some (c.getD (LimpiezaFinal.fillValue col.dtype)))⟩,
        hmap, rfl, rfl, ?_, ?_, ?_⟩
      · intro hcontra
        exact Bool.noConfusion hcontra
      · refine fun _ => ⟨rfl, ?_⟩
        unfold LimpiezaFinal.relleno_log
        exact List.mem_map.mpr
          ⟨col, List.mem_filter.mpr ⟨List.getElem?_mem h, hany⟩, rfl⟩
      · intro c hc
        obtain ⟨a, _, rfl⟩ := List.mem_map.mp hc
        rfl

/-- C3, witness for the amended theorem: on the concrete one-column table
with a null, the fill pass produces the `'Desconocido'`-filled column in
place. -/
theorem manejar_nulos_fill_policy_witness :
    ∃ col', (LimpiezaFinal.manejar_nulos dfFillTok)[0]? = some col' ∧
      col'.name = "EVENT_TYPE" ∧ col'.dtype = Dtype.object ∧
      col'.cells = [some (Val.str "Desconocido"), some (Val.str "Hail")] := by
  obtain ⟨col', h1, h2, h3, _, h5, _⟩ :=
    manejar_nulos_fill_policy dfFillTok 0 colFillTok (by decide)
  refine ⟨col', h1, h2, h3, ?_⟩
  rw [(h5 (by decide)).1]
  decide

/-! ## Claim C10: the fatality-specific fills -/

theorem getCells_setCells_same (df : CDF) (n : String) (cs cs0 : List Cell)
    (h : getCells df n = some cs0) : getCells (setCells df n cs) n = some cs := by
  induction df with
  | nil => simp [getCells] at h
  | cons c rest ih =>
      simp only [setCells, List.map_cons] at ih ⊢
      by_cases hc : c.name = n
      · rw [if_pos hc]
        show (if n = n then some cs else _) = some cs
        rw [if_pos rfl]
      · rw [if_neg hc]
        simp only [getCells, if_neg hc] at h ⊢
        exact ih h

theorem getCells_setCells_other (df : CDF) (n m : String) (cs : List Cell)
    (h : n ≠ m) : getCells (setCells df n cs) m = getCells df m := by
  induction df with
  | nil => rfl
  | cons c rest ih =>
      simp only [setCells, List.map_cons] at ih ⊢
      by_cases hc : c.name = n
      · rw [if_pos hc]
        show (if n = m then _ else _) = _
        rw [if_neg h]
        simp only [getCells, if_neg (hc ▸ h : ¬c.name = m)]
        exact ih
      · rw [if_neg hc]
        by_cases hm : c.name = m
        · simp only [getCells, if_pos hm]
        · simp only [getCells, if_neg hm]
          exact ih

theorem fill_neg_age (ages : List Cell) :
    ∀ i : ℕ, ages[i]? = some none →
      ∃ q : ℚ, q < 0 ∧
        (ages.map (fun c => some (c.getD (Val.num (-1)))))[i]? =
          some (some (Val.num q)) := by
  intro i hi
  refine ⟨-1, by norm_num, ?_⟩
  rw [List.getElem?_map, hi]
  rfl

/-- C10: `limpiar_fatalidades` fills every null `FATALITY_AGE` with `-1`
and every null `FATALITY_SEX` with the token `'Desconocido'` — a policy
distinct from the general value-fill (numeric nulls there become `0`): a
fatality of unknown age carries the negative value `-1` afterwards. -/
theorem limpiar_fatalidades_fills :
    ∀ (df : CDF) (ages sexes : List Cell),
      getCells df "FATALITY_AGE" = some ages →
      getCells df "FATALITY_SEX" = some sexes →
      ∃ df', Limpieza.limpiar_fatalidades df = some df' ∧
        getCells df' "FATALITY_AGE" =
          some (ages.map (fun c => some (c.getD (Val.num (-1))))) ∧
        getCells df' "FATALITY_SEX" =
          some (sexes.map (fun c => some (c.getD (Val.str "Desconocido")))) ∧
        (∀ i : ℕ, ages[i]? = some none →
          ∃ q : ℚ, q < 0 ∧
            (ages.map (fun c => some (c.getD (Val.num (-1)))))[i]? =
              some (some (Val.num q))) := by
  intro df ages sexes hA hS
  unfold Limpieza.limpiar_fatalidades
  rw [hA, hS]
  dsimp only
  have hA1 := getCells_setCells_same df "FATALITY_AGE"
    (ages.map (fun c => some (c.getD (Val.num (-1))))) ages hA
  have hS0 : getCells (setCells df "FATALITY_AGE"
      (ages.map (fun c => some (c.getD (Val.num (-1)))))) "FATALITY_SEX" = some sexes := by
    rw [getCells_setCells_other _ _ _ _ (by decide)]
    exact hS
  have hS2 := getCells_setCells_same _ "FATALITY_SEX"
    (sexes.map (fun c => some (c.getD (Val.str "Desconocido")))) sexes hS0
  have hA2 : getCells (setCells (setCells df "FATALITY_AGE"
      (ages.map (fun c => some (c.getD (Val.num (-1)))))) "FATALITY_SEX"
      (sexes.map (fun c => some (c.getD (Val.str "Desconocido"))))) "FATALITY_AGE" =
      some (ages.map (fun c => some (c.getD (Val.num (-1))))) := by
    rw [getCells_setCells_other _ _ _ _ (by decide)]
    exact hA1
  cases hloc : getCells (setCells (setCells df "FATALITY_AGE"
      (ages.map (fun c => some (c.getD (Val.num (-1)))))) "FATALITY_SEX"
      (sexes.map (fun c => some (c.getD (Val.str "Desconocido"))))) "FATALITY_LOCATION" with
  | none =>
      refine ⟨_, ?_, hA2, hS2, fill_neg_age ages⟩
      rfl
  | some locs =>
      refine ⟨setCells (setCells (setCells df "FATALITY_AGE"
          (ages.map (fun c => some (c.getD (Val.num (-1)))))) "FATALITY_SEX"
          (sexes.map (fun c => some (c.getD (Val.str "Desconocido"))))) "FATALITY_LOCATION"
          (locs.map (fun c => some (Val.str (String.mk
            ((pyStripL (cellAsPyStr c).data).map pyLowerChar))))),
        rfl, ?_, ?_, fill_neg_age ages⟩
      · rw [getCells_setCells_other _ _ _ _ (by decide)]
        exact hA2
      · rw [getCells_setCells_other _ _ _ _ (by decide)]
        exact hS2

/-- C10, witness: on a concrete fatalities table with a null age and a null
sex, the fills produce `-1` and `'Desconocido'`. -/
theorem limpiar_fatalidades_fills_witness :
    ∃ df', Limpieza.limpiar_fatalidades dfFat = some df' ∧
      getCells df' "FATALITY_AGE" = some [some (Val.num (-1)), some (Val.num 30)] ∧
      getCells df' "FATALITY_SEX" = some [some (Val.str "Desconocido")] := by
  obtain ⟨df', h1, h2, h3, _⟩ :=
    limpiar_fatalidades_fills dfFat [none, some (Val.num 30)] [none]
      (by decide) (by decide)
  refine ⟨df', h1, ?_, ?_⟩
  · rw [h2]
    rfl
  · rw [h3]
    rfl

/-! ## Claim C7: the duplicate analyzer -/

theorem filter_eq_singleton_of (l : List String) (a : String) (p : String → Bool)
    (hnd : l.Nodup) (ha : a ∈ l) (hp : ∀ b ∈ l, p b = true ↔ b = a) :
    l.filter p = [a] := by
  induction l with
  | nil => cases ha
  | cons x t ih =>
      rw [List.filter_cons]
      rcases List.mem_cons.mp ha with hxa | hat
      · subst hxa
        rw [if_pos ((hp a (List.mem_cons_self a t)).mpr rfl)]
        have hnone : ∀ b ∈ t, ¬ p b = true := by
          intro b hb hpb
          have hba := (hp b (List.mem_cons_of_mem a hb)).mp hpb
          subst hba
          exact (List.nodup_cons.mp hnd).1 hb
        rw [List.filter_eq_nil_iff.mpr hnone]
      · have hpx : ¬ p x = true := by
          intro hpx
          have hxa := (hp x (List.mem_cons_self x t)).mp hpx
          subst hxa
          exact (List.nodup_cons.mp hnd).1 hat
        rw [if_neg hpx]
        exact ih (List.nodup_cons.mp hnd).2 hat
          (fun b hb => hp b (List.mem_cons_of_mem x hb))

/-- C7, counterexample: on two rows sharing key `E1` that differ only in
`FATALITY_AGE` — one null, one `5` — the analyzer reports no differing
columns at all: `nunique()` ignores nulls, so a null-versus-value
difference is invisible to it. -/
theorem diferencias_nunique_null_missed :
    Chequeo.columnas_con_diferencias dfDupNull "EVENT_ID" ≠ ["FATALITY_AGE"] ∧
    Chequeo.columnas_con_diferencias dfDupNull "EVENT_ID" = [] := by
  exact ⟨by decide, by decide⟩

/-- C7, amended: for a table of exactly two rows sharing key `E1` (with
pairwise-distinct column names) whose cells agree on every column other
than `FATALITY_AGE` and whose `FATALITY_AGE` values are distinct and both
non-null, `columns_with_differences` is exactly `[FATALITY_AGE]`; when one
of the two ages is null instead, the difference goes unreported. -/
theorem diferencias_singleton :
    ∀ (cols : List String) (r1 r2 : Row) (e a1 a2 : Val),
      cols.Nodup → "FATALITY_AGE" ∈ cols →
      rowCell r1 "EVENT_ID" = some e → rowCell r2 "EVENT_ID" = some e →
      rowCell r1 "FATALITY_AGE" = some a1 → rowCell r2 "FATALITY_AGE" = some a2 →
      a1 ≠ a2 →
      (∀ c ∈ cols, c ≠ "FATALITY_AGE" → rowCell r1 c = rowCell r2 c) →
      Chequeo.columnas_con_diferencias ⟨cols, [r1, r2]⟩ "EVENT_ID" =
        ["FATALITY_AGE"] := by
  intro cols r1 r2 e a1 a2 hnd hmem h1 h2 hA1 hA2 hne hsame
  have hdup : Chequeo.duplicadosParciales [r1, r2] "EVENT_ID" = [r1, r2] := by
    apply List.filter_eq_self.mpr
    intro r hr
    rcases List.mem_cons.mp hr with hr1 | hr2
    · subst hr1
      simp [List.countP_cons, h1, h2]
    · rw [List.mem_singleton.mp hr2]
      simp [List.countP_cons, h1, h2]
  have hkeys : Chequeo.groupKeys [r1, r2] "EVENT_ID" = [e] := by
    unfold Chequeo.groupKeys
    rw [show List.filterMap (fun r => rowCell r "EVENT_ID") [r1, r2] = [e, e] by
      simp [List.filterMap_cons, h1, h2]]
    rw [List.dedup_cons_of_mem (List.mem_singleton.mpr rfl)]
    rw [List.dedup_cons_of_not_mem (List.not_mem_nil e), List.dedup_nil]
  have hfilter2 : List.filter
      (fun r => decide (rowCell r "EVENT_ID" = some e)) [r1, r2] = [r1, r2] := by
    apply List.filter_eq_self.mpr
    intro r hr
    rcases List.mem_cons.mp hr with hr1 | hr2
    · subst hr1
      simp [h1]
    · rw [List.mem_singleton.mp hr2]
      simp [h2]
  have hAGE : Chequeo.maxGroupNunique [r1, r2] "EVENT_ID" "FATALITY_AGE" = 2 := by
    unfold Chequeo.maxGroupNunique
    rw [hkeys, List.map_singleton, hfilter2]
    unfold Chequeo.nuniqueDropna
    rw [show List.map (fun r => rowCell r "FATALITY_AGE") [r1, r2] =
      [some a1, some a2] by simp [hA1, hA2]]
    rw [show List.filterMap id [some a1, some a2] = [a1, a2] by
      simp [List.filterMap_cons]]
    rw [List.dedup_cons_of_not_mem (by simpa using hne)]
    rw [List.dedup_cons_of_not_mem (List.not_mem_nil a2), List.dedup_nil]
    rfl
  have hother : ∀ col ∈ cols, col ≠ "FATALITY_AGE" →
      ¬ (1 < Chequeo.maxGroupNunique [r1, r2] "EVENT_ID" col) := by
    intro col hc hcne
    unfold Chequeo.maxGroupNunique
    rw [hkeys, List.map_singleton, hfilter2]
    unfold Chequeo.nuniqueDropna
    have hcc := hsame col hc hcne
    rw [show List.map (fun r => rowCell r col) [r1, r2] =
      [rowCell r1 col, rowCell r1 col] by simp [hcc]]
    cases hx : rowCell r1 col with
    | none => simp
    | some w =>
        rw [show List.filterMap id [some w, some w] = [w, w] by
          simp [List.filterMap_cons]]
        rw [List.dedup_cons_of_mem (List.mem_singleton.mpr rfl)]
        rw [List.dedup_cons_of_not_mem (List.not_mem_nil w), List.dedup_nil]
        simp
  apply filter_eq_singleton_of cols "FATALITY_AGE" _ hnd hmem
  intro b hb
  show (decide _) = true ↔ _
  rw [show Chequeo.duplicadosParciales (RDF.mk cols [r1, r2]).rows "EVENT_ID" =
    [r1, r2] from hdup]
  by_cases hbA : b = "FATALITY_AGE"
  · subst hbA
    simp [hAGE]
  · simp only [decide_eq_true_eq]
    constructor
    · intro hgt
      exact absurd hgt (hother b hb hbA)
    · intro hcontra
      exact absurd hcontra hbA

/-- C7, witness for the amended theorem: on the concrete two-row table with
ages `3` and `5`, the analyzer reports exactly `[FATALITY_AGE]`. -/
theorem diferencias_singleton_witness :
    Chequeo.columnas_con_diferencias dfDupAges "EVENT_ID" = ["FATALITY_AGE"] :=
  diferencias_singleton ["EVENT_ID", "FATALITY_AGE", "X"] rowDup1 rowDup2
    (Val.str "E1") (Val.num 3) (Val.num 5)
    (by decide) (by decide) (by decide) (by decide) (by decide) (by decide)
    (by decide) (by decide)

/-! ## Claim C5: merge fan-out -/

theorem cellEqSome_some_iff (v : Val) (c : Cell) :
    cellEqSome (some v) c = true ↔ c = some v := by
  cases c with
  | none => simp [cellEqSome]
  | some w =>
      simp only [cellEqSome, decide_eq_true_eq, Option.some.injEq]
      exact ⟨fun h => h.symm, fun h => h.symm⟩

theorem rowCell_append_left (r s : Row) (k : String) (v : Val)
    (h : rowCell r k = some v) : rowCell (r ++ s) k = some v := by
  induction r with
  | nil => exact absurd h (by simp [rowCell])
  | cons p rest ih =>
      simp only [rowCell, List.cons_append] at h ⊢
      by_cases hp : p.1 = k
      · rwa [if_pos hp] at h ⊢
      · rw [if_neg hp] at h ⊢
        exact ih h

theorem rowCell_eq_none_of_not_mem (r : Row) (k : String)
    (h : k ∉ r.map Prod.fst) : rowCell r k = none := by
  induction r with
  | nil => rfl
  | cons p rest ih =>
      simp only [List.map_cons, List.mem_cons] at h
      push_neg at h
      simp only [rowCell]
      rw [if_neg (fun he => h.1 he.symm)]
      exact ih h.2

theorem map_fst_filter_names (r : Row) (names : List String) :
    (r.filter (fun p => !(names.contains p.1))).map Prod.fst =
      (r.map Prod.fst).filter (fun c => !(names.contains c)) := by
  induction r with
  | nil => rfl
  | cons q rest ih =>
      rw [List.filter_cons, List.map_cons, List.filter_cons]
      cases hq : names.contains q.1 with
      | true =>
          rw [if_neg (by simp), if_neg (by simp)]
          exact ih
      | false =>
          rw [if_pos (by simp), if_pos (by simp)]
          rw [List.map_cons, ih]

theorem leftMerge_rows (l r : RDF) (key : String) :
    (leftMerge l r key).rows = l.rows.flatMap (fun lr =>
      let ms := r.rows.filter (fun rr => cellEqSome (rowCell lr key) (rowCell rr key))
      if ms.isEmpty then [lr ++ nullRow r.cols key]
      else ms.map (fun rr => lr ++ rowDropKey rr key)) := rfl

theorem dedupByKey_filter_le_one (k : String) (v : Val) :
    ∀ (rows : List Row) (seen : List Cell),
      ((dedupByKey k seen rows).filter
        (fun r => cellEqSome (some v) (rowCell r k))).length ≤ 1 ∧
      (some v ∈ seen →
        ((dedupByKey k seen rows).filter
          (fun r => cellEqSome (some v) (rowCell r k))).length = 0) := by
  intro rows
  induction rows with
  | nil => exact fun seen => ⟨by simp [dedupByKey], fun _ => by simp [dedupByKey]⟩
  | cons r rs ih =>
      intro seen
      unfold dedupByKey
      by_cases hmem : rowCell r k ∈ seen
      · rw [if_pos hmem]
        exact ih seen
      · rw [if_neg hmem]
        rw [List.filter_cons]
        cases hpred : cellEqSome (some v) (rowCell r k) with
        | true =>
            have hrv : rowCell r k = some v := (cellEqSome_some_iff v _).mp hpred
            rw [if_pos rfl]
            have h0 := (ih (rowCell r k :: seen)).2 (by rw [hrv]; exact List.mem_cons_self _ _)
            constructor
            · simp only [List.length_cons, h0]
              omega
            · intro hv
              exact absurd (hrv ▸ hv) hmem
        | false =>
            rw [if_neg (by simp)]
            refine ⟨(ih (rowCell r k :: seen)).1, fun hv => ?_⟩
            exact (ih (rowCell r k :: seen)).2 (List.mem_cons_of_mem _ hv)

/-- C5: merge fan-out — for a details table with exactly one row keyed
`E1` and a fatalities table with exactly three rows keyed `E1`, the
pipeline's merge (details LEFT JOIN fatalities on `EVENT_ID`, then LEFT
JOIN the cleaned — deduplicated — locations on `EVENT_ID`) produces
exactly three rows, each of which starts with all the details-table values
and ends with one shared locations part: the three rows differ only in
their fatality-specific segment. -/
theorem merge_fanout_three :
    ∀ (det fat lug : RDF) (d f1 f2 f3 : Row) (e1 : Val),
      det.rows = [d] →
      fat.rows = [f1, f2, f3] →
      rowCell d "EVENT_ID" = some e1 →
      rowCell f1 "EVENT_ID" = some e1 →
      rowCell f2 "EVENT_ID" = some e1 →
      rowCell f3 "EVENT_ID" = some e1 →
      (∀ r ∈ lug.rows, r.map Prod.fst = lug.cols) →
      ∃ lp : Row,
        (leftMerge (leftMerge det fat "EVENT_ID") (Limpieza.limpiar_lugares lug)
            "EVENT_ID").rows =
          [(d ++ rowDropKey f1 "EVENT_ID") ++ lp,
           (d ++ rowDropKey f2 "EVENT_ID") ++ lp,
           (d ++ rowDropKey f3 "EVENT_ID") ++ lp] ∧
        ∀ r ∈ (leftMerge (leftMerge det fat "EVENT_ID")
            (Limpieza.limpiar_lugares lug) "EVENT_ID").rows,
          rowCell r "EVENT_ID" = some e1 := by
  intro det fat lug d f1 f2 f3 e1 hdet hfat hd hf1 hf2 hf3 hcons
  have hm1 : (leftMerge det fat "EVENT_ID").rows =
      [d ++ rowDropKey f1 "EVENT_ID", d ++ rowDropKey f2 "EVENT_ID",
       d ++ rowDropKey f3 "EVENT_ID"] := by
    have hms : List.filter
        (fun rr => cellEqSome (rowCell d "EVENT_ID") (rowCell rr "EVENT_ID"))
        [f1, f2, f3] = [f1, f2, f3] := by
      apply List.filter_eq_self.mpr
      intro r hr
      rw [hd]
      rcases List.mem_cons.mp hr with h | hr2
      · rw [h, (cellEqSome_some_iff e1 _).mpr hf1]
      rcases List.mem_cons.mp hr2 with h | hr3
      · rw [h, (cellEqSome_some_iff e1 _).mpr hf2]
      rw [List.mem_singleton.mp hr3, (cellEqSome_some_iff e1 _).mpr hf3]
    rw [leftMerge_rows, hdet, hfat]
    rw [List.flatMap_cons, List.flatMap_nil, List.append_nil]
    dsimp only
    rw [hms]
    rfl
  have hk : ∀ g : Row, rowCell (d ++ g) "EVENT_ID" = some e1 :=
    fun g => rowCell_append_left d g "EVENT_ID" e1 hd
  have hM : ((Limpieza.limpiar_lugares lug).rows.filter
      (fun rr => cellEqSome (some e1) (rowCell rr "EVENT_ID"))).length ≤ 1 := by
    unfold Limpieza.limpiar_lugares
    by_cases hkc : (dropColsRDF lug ["LAT2", "LON2"]).cols.contains "EVENT_ID"
    · rw [if_pos hkc]
      exact (dedupByKey_filter_le_one "EVENT_ID" e1 _ []).1
    · rw [if_neg hkc]
      have hnone : ∀ r ∈ (dropColsRDF lug ["LAT2", "LON2"]).rows,
          cellEqSome (some e1) (rowCell r "EVENT_ID") = false := by
        intro r hr
        obtain ⟨r0, hr0, rfl⟩ := List.mem_map.mp hr
        have hfst : (r0.filter (fun p => !(["LAT2", "LON2"].contains p.1))).map Prod.fst =
            (dropColsRDF lug ["LAT2", "LON2"]).cols := by
          rw [map_fst_filter_names, hcons r0 hr0]
          rfl
        have hnotin : "EVENT_ID" ∉
            (r0.filter (fun p => !(["LAT2", "LON2"].contains p.1))).map Prod.fst := by
          rw [hfst]
          intro hin
          exact absurd (List.elem_iff.mpr hin) (by exact hkc)
        rw [rowCell_eq_none_of_not_mem _ _ hnotin]
        rfl
      rw [List.filter_eq_nil_iff.mpr
        (fun r hr => by rw [hnone r hr]; exact Bool.false_ne_true)]
      simp
  have hbody : ∀ lr : Row, rowCell lr "EVENT_ID" = some e1 →
      (Limpieza.limpiar_lugares lug).rows.filter
        (fun rr => cellEqSome (rowCell lr "EVENT_ID") (rowCell rr "EVENT_ID")) =
      (Limpieza.limpiar_lugares lug).rows.filter
        (fun rr => cellEqSome (some e1) (rowCell rr "EVENT_ID")) := by
    intro lr hlr
    rw [hlr]
  have hsplit : (Limpieza.limpiar_lugares lug).rows.filter
      (fun rr => cellEqSome (some e1) (rowCell rr "EVENT_ID")) = [] ∨
      ∃ r0, (Limpieza.limpiar_lugares lug).rows.filter
        (fun rr => cellEqSome (some e1) (rowCell rr "EVENT_ID")) = [r0] := by
    cases hc : (Limpieza.limpiar_lugares lug).rows.filter
        (fun rr => cellEqSome (some e1) (rowCell rr "EVENT_ID")) with
    | nil => exact Or.inl rfl
    | cons a t =>
        cases t with
        | nil => exact Or.inr ⟨a, rfl⟩
        | cons b t2 =>
            rw [hc] at hM
            simp at hM
  rcases hsplit with hnil | ⟨r0, hone⟩
  · have hrows : (leftMerge (leftMerge det fat "EVENT_ID")
        (Limpieza.limpiar_lugares lug) "EVENT_ID").rows =
        [(d ++ rowDropKey f1 "EVENT_ID") ++
           nullRow (Limpieza.limpiar_lugares lug).cols "EVENT_ID",
         (d ++ rowDropKey f2 "EVENT_ID") ++
           nullRow (Limpieza.limpiar_lugares lug).cols "EVENT_ID",
         (d ++ rowDropKey f3 "EVENT_ID") ++
           nullRow (Limpieza.limpiar_lugares lug).cols "EVENT_ID"] := by
      rw [leftMerge_rows, hm1]
      rw [List.flatMap_cons, List.flatMap_cons, List.flatMap_cons, List.flatMap_nil]
      dsimp only
      rw [hbody _ (hk _), hbody _ (hk _), hbody _ (hk _), hnil]
      rfl
    refine ⟨nullRow (Limpieza.limpiar_lugares lug).cols "EVENT_ID", hrows, ?_⟩
    intro r hr
    rw [hrows] at hr
    rcases List.mem_cons.mp hr with h | hr2
    · rw [h, List.append_assoc]
      exact hk _
    rcases List.mem_cons.mp hr2 with h | hr3
    · rw [h, List.append_assoc]
      exact hk _
    · rw [List.mem_singleton.mp hr3, List.append_assoc]
      exact hk _
  · have hrows : (leftMerge (leftMerge det fat "EVENT_ID")
        (Limpieza.limpiar_lugares lug) "EVENT_ID").rows =
        [(d ++ rowDropKey f1 "EVENT_ID") ++ rowDropKey r0 "EVENT_ID",
         (d ++ rowDropKey f2 "EVENT_ID") ++ rowDropKey r0 "EVENT_ID",
         (d ++ rowDropKey f3 "EVENT_ID") ++ rowDropKey r0 "EVENT_ID"] := by
      rw [leftMerge_rows, hm1]
      rw [List.flatMap_cons, List.flatMap_cons, List.flatMap_cons, List.flatMap_nil]
      dsimp only
      rw [hbody _ (hk _), hbody _ (hk _), hbody _ (hk _), hone]
      rfl
    refine ⟨rowDropKey r0 "EVENT_ID", hrows, ?_⟩
    intro r hr
    rw [hrows] at hr
    rcases List.mem_cons.mp hr with h | hr2
    · rw [h, List.append_assoc]
      exact hk _
    rcases List.mem_cons.mp hr2 with h | hr3
    · rw [h, List.append_assoc]
      exact hk _
    · rw [List.mem_singleton.mp hr3, List.append_assoc]
      exact hk _

/-- C5, witness: the fan-out theorem applied to concrete tables — one
details row `E1`, three fatality rows `E1`, and a locations table with a
`LAT2` column and two duplicate `E1` rows that the dedup pass collapses. -/
theorem merge_fanout_three_witness :
    ∃ lp : Row,
      (leftMerge (leftMerge dfDet dfFat3 "EVENT_ID") (Limpieza.limpiar_lugares dfLug)
          "EVENT_ID").rows =
        [(rowDet ++ rowDropKey rowFat1 "EVENT_ID") ++ lp,
         (rowDet ++ rowDropKey rowFat2 "EVENT_ID") ++ lp,
         (rowDet ++ rowDropKey rowFat3 "EVENT_ID") ++ lp] ∧
      ∀ r ∈ (leftMerge (leftMerge dfDet dfFat3 "EVENT_ID")
          (Limpieza.limpiar_lugares dfLug) "EVENT_ID").rows,
        rowCell r "EVENT_ID" = some (Val.str "E1") :=
  merge_fanout_three dfDet dfFat3 dfLug rowDet rowFat1 rowFat2 rowFat3
    (Val.str "E1") rfl rfl (by decide) (by decide) (by decide) (by decide)
    (by decide)

end NOAA
